import Mathlib

set_option maxHeartbeats 1000000

/-!
Verification development for the tier0-discovery pipeline:
the network Discovery Engine (`network_discovery.py`), the hardware
Assessment Engine (`hardware_analyzer.py`) and the Classifier /
Inventory Builder (`generate_inventory.py`).

Modelling conventions of the shallow embedding:
- Python strings are Lean `String`; single-character Python operations
  (`str.lower`, `str.replace` with one-character patterns, the character
  filter of `_safe_hostname`) are mapped over `String.data`.  `isalnum`,
  `isdigit`, `lower` are modelled on their ASCII behaviour, which is the
  behaviour exercised by hostnames and IP addresses.
- IPv4 addresses handled numerically by `ipaddress` are `Nat` below `2 ^ 32`;
  `str` on addresses is injective so address equality is modelled on the
  numeric form.
- JSON dictionaries become structures with `Option` fields (`none` = key
  absent).  A JSON value that may be `null` as well as absent becomes
  `Option (Option _)`.
- Network and host I/O (nmap, scapy probes, reverse DNS, sockets, ping,
  the remote ssh/WMI introspection payloads and the filesystem) is
  abstracted into explicit environment structures; the control flow around
  that I/O is translated from the source.
- Python exceptions become `Except`; a `try`/`except` block becomes a
  `match` on the `Except` value at the place the source catches.
-/

namespace Pipeline

/-! ### String helpers shared by the embedded scripts -/

/-- Character translation used by `InventoryGenerator._safe_hostname`:
`c if c.isalnum() or c in '-_' else '_'`. -/
def sanitizeChar (c : Char) : Char :=
  if c.isAlphanum || c = '-' || c = '_' then c else '_'

/-- Python `s.lower()` (ASCII). -/
def pyLower (s : String) : String := ⟨s.data.map Char.toLower⟩

/-- Python `s.split('.')[0]`: the prefix of `s` before the first dot. -/
def pySplitDotHead (s : String) : String := ⟨s.data.takeWhile (fun c => c ≠ '.')⟩

/-- Python `''.join(c if c.isalnum() or c in '-_' else '_' for c in s)`. -/
def pySanitize (s : String) : String := ⟨s.data.map sanitizeChar⟩

/-- Python `s.replace('.', '_')` (single-character pattern). -/
def pyReplaceDot (s : String) : String :=
  ⟨s.data.map (fun c => if c = '.' then '_' else c)⟩

/-- Python `s[0].isdigit()` guarded by nonemptiness. -/
def headIsDigit (s : String) : Bool :=
  match s.data with
  | [] => false
  | c :: _ => c.isDigit

/-- Whether the character list `p` is an initial segment of `l`. -/
def startsWithChars : List Char → List Char → Bool
  | [], _ => true
  | _ :: _, [] => false
  | p :: ps, c :: cs => p == c && startsWithChars ps cs

/-- Whether the character list `p` occurs contiguously inside `l`
(Python `p in s` on strings). -/
def containsChars (p : List Char) : List Char → Bool
  | [] => startsWithChars p []
  | c :: cs => startsWithChars p (c :: cs) || containsChars p cs

/-- Python substring test `pat in s`. -/
def strContains (s pat : String) : Bool := containsChars pat.data s.data

/-- Python `n in lst` for a list of integers. -/
def natMem (n : Nat) : List Nat → Bool
  | [] => false
  | m :: r => n == m || natMem n r

/-! ### Association-list model of Python dictionaries -/

/-- Python `d[k]` read access returning `none` when the key is absent. -/
def lookupA {K V : Type} [DecidableEq K] (k : K) : List (K × V) → Option V
  | [] => none
  | (k', v) :: r => if k' = k then some v else lookupA k r

/-- Python in-place mutation of the value stored under an existing key
(`d[k] = f d[k]`); a missing key (which would raise `KeyError` in the
source) leaves the dictionary unchanged — all uses below are on keys
present in the base structure. -/
def updateA {K V : Type} [DecidableEq K] (k : K) (f : V → V) : List (K × V) → List (K × V)
  | [] => []
  | (k', v) :: r => if k' = k then (k', f v) :: r else (k', v) :: updateA k f r

/-- Python `d[k] = v`: overwrite in place when the key exists (keeping its
position, as CPython dictionaries do), append otherwise. -/
def dictInsert {V : Type} (k : String) (v : V) : List (String × V) → List (String × V)
  | [] => [(k, v)]
  | (k', v') :: r => if k' = k then (k, v) :: r else (k', v') :: dictInsert k v r

/-! ### Data model of device records consumed by the inventory generator -/

/-- JSON scalar stored in a host-variable mapping. -/
inductive HVal where
  | str : String → HVal
  | intv : Int → HVal
  | boolv : Bool → HVal
  | nullv : HVal
deriving DecidableEq, Repr

/-- Value of `device['hardware']['cpu']`; `dict.get` collapses an absent
key and `null` to `None`, modelled by `HVal.nullv`. -/
structure CpuInfo where
  cores : HVal
  architecture : HVal
deriving DecidableEq, Repr

/-- Value of `device['hardware']['memory']`. -/
structure MemInfo where
  total_mb : HVal
deriving DecidableEq, Repr

/-- Value of `device['hardware']`. -/
structure HardwareData where
  cpu : Option CpuInfo
  memory : Option MemInfo
  virtualization_support : Option Bool
deriving DecidableEq, Repr

/-- Value of `device['operating_system']` (`ostype` models the `'type'`
key, `type` being reserved in Lean). -/
structure OsData where
  ostype : Option String
deriving DecidableEq, Repr

/-- One element of `device['open_ports']`; `p.get('port')`. -/
structure PortEntry where
  port : Option Int
deriving DecidableEq, Repr

/-- One device record from a discovery/assessment JSON file.
`hostname` distinguishes key absent (`none`), key present with `null`
(`some none`), and a string value (`some (some s)`). -/
structure Device where
  ip_address : Option String
  hostname : Option (Option String)
  operating_system : Option OsData
  open_ports : Option (List PortEntry)
  hardware : Option HardwareData
deriving DecidableEq, Repr

/-! ### InventoryGenerator (`generate_inventory.py`) -/

/-- The `safe_name` computed by `_safe_hostname` from a present,
non-sentinel hostname (lines 185-192): strip at the first dot, replace
characters outside the allow-list, and prefix `host_` when the result
starts with a digit. -/
def safe_name_of (h : String) : String :=
  if pySanitize (pySplitDotHead h) ≠ "" ∧ headIsDigit (pySanitize (pySplitDotHead h)) = true
  then "host_" ++ pySanitize (pySplitDotHead h)
  else pySanitize (pySplitDotHead h)

/-- Translation of `InventoryGenerator._safe_hostname` (lines 181-198). -/
def safe_hostname : Option String → String → String
  | none, ip_address => "host_" ++ pyReplaceDot ip_address
  | some h, ip_address =>
    if h ≠ "" ∧ pyLower h ≠ "unknown" then
      if safe_name_of h ≠ "" then safe_name_of h else "host_" ++ pyReplaceDot ip_address
    else
      "host_" ++ pyReplaceDot ip_address

/-- Windows-indicative ports of `_determine_os_type`. -/
def windowsPortHit (p : PortEntry) : Bool :=
  p.port == some 3389 || p.port == some 5985 || p.port == some 5986

/-- Port-based branch of `InventoryGenerator._determine_os_type`. -/
def os_from_ports (d : Device) : String :=
  match d.open_ports with
  | some ports =>
    if ports.any windowsPortHit then "windows"
    else if ports.any (fun p => p.port == some 22) then "linux"
    else "other"
  | none => "other"

/-- Translation of `InventoryGenerator._determine_os_type` (lines 200-224).
When the explicit OS type matches no known family and contains no
`"network"` marker, control falls through to the port heuristics. -/
def determine_os_type (d : Device) : String :=
  match d.operating_system with
  | some osd =>
    match osd.ostype with
    | some t =>
      let tl := pyLower t
      if tl = "linux" ∨ tl = "windows" ∨ tl = "macos" then tl
      else if strContains tl "network" then "network_devices"
      else os_from_ports d
    | none => os_from_ports d
  | none => os_from_ports d

/-- Hostname keywords for the networking-gear role. -/
def networkTerms : List String := ["router", "switch", "fw", "firewall", "gateway"]

/-- Hostname keywords for the storage role. -/
def storageTerms : List String := ["nas", "san", "storage", "backup"]

/-- Database-indicative ports of `_determine_device_role`. -/
def dbPortHit (p : PortEntry) : Bool :=
  p.port == some 3306 || p.port == some 5432 || p.port == some 1521 || p.port == some 27017

/-- Web-indicative ports of `_determine_device_role`. -/
def webPortHit (p : PortEntry) : Bool :=
  p.port == some 80 || p.port == some 443 || p.port == some 8080

/-- Translation of `InventoryGenerator._determine_device_role`
(lines 226-259).  `device.get('hostname', '').lower()` raises
`AttributeError` when the `hostname` key is present with value `null`,
modelled as `Except.error`. -/
def determine_device_role (d : Device) : Except String String :=
  match d.hostname with
  | some none => .error "AttributeError"
  | dh =>
    let hn := pyLower (match dh with | some (some s) => s | _ => "")
    if networkTerms.any (fun t => strContains hn t) then .ok "network"
    else if storageTerms.any (fun t => strContains hn t) then .ok "storage"
    else if (match d.hardware with
             | some hw => hw.virtualization_support.getD false
             | none => false) then .ok "virtualization"
    else
      match d.open_ports with
      | some ports =>
        if ports.any webPortHit then .ok "cloud"
        else if ports.any dbPortHit then .ok "business"
        else .ok "ungrouped"
      | none => .ok "ungrouped"

/-- Host-variable mapping (`host_vars`). -/
abbrev HostVars := List (String × HVal)

/-- Connection variables of `_add_host_to_inventory` (lines 268-273). -/
def conn_vars (os_type : String) : HostVars :=
  if os_type = "windows" then
    [("ansible_connection", HVal.str "winrm"),
     ("ansible_winrm_server_cert_validation", HVal.str "ignore")]
  else if os_type = "linux" ∨ os_type = "macos" then
    [("ansible_connection", HVal.str "ssh")]
  else []

/-- Hardware variables of `_add_host_to_inventory` (lines 275-290). -/
def hw_vars (d : Device) : HostVars :=
  match d.hardware with
  | none => []
  | some hw =>
    (match hw.cpu with
     | some cpu => [("cpu_cores", cpu.cores), ("cpu_arch", cpu.architecture)]
     | none => []) ++
    (match hw.memory with
     | some mem => [("memory_mb", mem.total_mb)]
     | none => []) ++
    (match hw.virtualization_support with
     | some b => [("virtualization_support", HVal.boolv b)]
     | none => [])

/-- The complete `host_vars` dictionary built in `_add_host_to_inventory`
(the keys are pairwise distinct, so insertion order equals this list). -/
def build_host_vars (os_type ip : String) (d : Device) : HostVars :=
  [("ansible_host", HVal.str ip)] ++ conn_vars os_type ++ hw_vars d

/-- Hosts mapping of one inventory group. -/
abbrev Hosts := List (String × HostVars)

/-- The inventory tree: `ungrouped` hosts, the tier/role groups keyed by
(tier, role), and the OS-family groups under `os_types`. -/
structure Inventory where
  ungrouped : Hosts
  tierGroups : List ((String × String) × Hosts)
  osGroups : List (String × Hosts)
deriving DecidableEq, Repr

/-- Translation of `InventoryGenerator._create_base_inventory`. -/
def base_inventory : Inventory :=
  { ungrouped := []
    tierGroups :=
      [(("tier1_core", "network"), []), (("tier1_core", "storage"), []),
       (("tier1_core", "security"), []), (("tier1_core", "virtualization"), []),
       (("tier2_services", "automation"), []), (("tier2_services", "monitoring"), []),
       (("tier2_services", "identity"), []), (("tier2_services", "secrets"), []),
       (("tier3_applications", "business"), []), (("tier3_applications", "media"), []),
       (("tier3_applications", "cloud"), []),
       (("tier4_specialized", "ai"), []), (("tier4_specialized", "gaming"), []),
       (("tier4_specialized", "security_specialized"), [])]
    osGroups :=
      [("linux", []), ("windows", []), ("macos", []),
       ("network_devices", []), ("other", [])] }

/-- Static role-to-tier lookup of `_add_host_to_inventory` (lines 297-307). -/
def role_tier (role : String) : Option String :=
  if role = "network" ∨ role = "storage" ∨ role = "security" ∨ role = "virtualization" then
    some "tier1_core"
  else if role = "automation" ∨ role = "monitoring" ∨ role = "identity" ∨ role = "secrets" then
    some "tier2_services"
  else if role = "business" ∨ role = "media" ∨ role = "cloud" then
    some "tier3_applications"
  else if role = "ai" ∨ role = "gaming" ∨ role = "security_specialized" then
    some "tier4_specialized"
  else none

/-- Translation of `InventoryGenerator._add_host_to_inventory`
(lines 261-314). -/
def add_host_to_inventory (inv : Inventory) (hostname ip os_type device_role : String)
    (d : Device) : Inventory :=
  let host_vars := build_host_vars os_type ip d
  let inv1 := { inv with osGroups := updateA os_type (dictInsert hostname host_vars) inv.osGroups }
  if device_role ≠ "ungrouped" then
    match role_tier device_role with
    | some tier =>
      { inv1 with
          tierGroups := updateA (tier, device_role) (dictInsert hostname ([] : HostVars)) inv1.tierGroups }
    | none => inv1
  else
    { inv1 with ungrouped := dictInsert hostname host_vars inv1.ungrouped }

/-- The hostname value passed to `_safe_hostname`:
`device.get('hostname', "unknown")`. -/
def hostnameArg (d : Device) : Option String :=
  match d.hostname with
  | none => some "unknown"
  | some none => none
  | some (some s) => some s

/-- One iteration of the device loop of
`InventoryGenerator.generate_inventory` (lines 155-177), including the
per-device `try`/`except` that skips a device whose processing raises. -/
def process_device (inv : Inventory) (d : Device) : Inventory :=
  match d.ip_address with
  | none => inv
  | some ip =>
    if ip = "" then inv
    else
      let sh := safe_hostname (hostnameArg d) ip
      let ost := determine_os_type d
      match determine_device_role d with
      | .error _ => inv
      | .ok role => add_host_to_inventory inv sh ip ost role d

/-- Translation of `InventoryGenerator.generate_inventory` applied to a
loaded device list. -/
def generate_inventory (devices : List Device) : Inventory :=
  devices.foldl process_device base_inventory

/-! ### NetworkDiscovery (`network_discovery.py`)

IPv4 addresses are `Nat` below `2 ^ 32`.  A CIDR subnet accepted by
`ipaddress.IPv4Network` (strict mode: host bits zero) is given by its
network address `netw` and its number of host bits
`hostBits = 32 - prefixlen`. -/

/-- The ranked OS guess attached to an nmap record
(`NetworkDiscovery._get_os_details`). -/
structure OsGuess where
  name : String
  accuracy : String
  osmatches : List String
deriving DecidableEq, Repr

/-- One entry of the `open_ports` list of an nmap record. -/
structure ScanPort where
  port : Nat
  protocol : String
  service : String
  product : String
deriving DecidableEq, Repr

/-- One discovered-device record appended to
`NetworkDiscovery.discovered_devices`.  `os` and `open_ports` are present
only on nmap records; the `timestamp` field is elided (wall-clock I/O). -/
structure DiscRecord where
  ip_address : Nat
  hostname : String
  mac_address : String
  os : Option OsGuess
  open_ports : Option (List ScanPort)
  discovery_method : String
deriving DecidableEq, Repr

/-- Raw per-port data reported by the nmap scanner for one host. -/
structure NmapPortInfo where
  port : Nat
  protocol : String
  state : String
  service : String
  product : String
deriving DecidableEq, Repr

/-- Raw data reported by the nmap scanner for one host: its address, the
`hostname()` string (`""` when unknown), the optional `'mac'` entry of
`addresses`, the `osmatch` list as (name, accuracy) pairs, and the
scanned ports. -/
structure NmapHostInfo where
  ip : Nat
  hostname : String
  mac : Option String
  osmatch : List (String × String)
  ports : List NmapPortInfo
deriving DecidableEq, Repr

/-- Environment of `scan_with_nmap`: whether `python-nmap` imported, and
the outcome of `scanner.scan` (`Except.error` models a raised exception). -/
structure NmapEnv where
  available : Bool
  scan : Except String (List NmapHostInfo)

/-- Translation of `NetworkDiscovery._get_os_details` (lines 189-202). -/
def get_os_details (h : NmapHostInfo) : OsGuess :=
  match h.osmatch with
  | [] => { name := "Unknown", accuracy := "0", osmatches := [] }
  | (n, a) :: _ => { name := n, accuracy := a, osmatches := (h.osmatch.take 3).map Prod.fst }

/-- Translation of `NetworkDiscovery._get_open_ports` (lines 204-220). -/
def get_open_ports (h : NmapHostInfo) : List ScanPort :=
  (h.ports.filter (fun p => p.state = "open")).map
    (fun p => { port := p.port, protocol := p.protocol, service := p.service,
                product := p.product })

/-- The record built for one nmap host (lines 82-90). -/
def nmap_record (h : NmapHostInfo) : DiscRecord :=
  { ip_address := h.ip
    hostname := if h.hostname = "" then "Unknown" else h.hostname
    mac_address := h.mac.getD "Unknown"
    os := some (get_os_details h)
    open_ports := some (get_open_ports h)
    discovery_method := "nmap" }

/-- Translation of `NetworkDiscovery.scan_with_nmap` (lines 59-97) acting
on the accumulated `self.discovered_devices` state `st`; the result is
(new state, return value). -/
def scan_with_nmap (env : NmapEnv) (st : List DiscRecord) :
    List DiscRecord × List DiscRecord :=
  if ¬env.available then (st, [])
  else
    match env.scan with
    | .error _ => (st, [])
    | .ok hostInfos =>
      let st' := st ++ hostInfos.map nmap_record
      (st', st')

/-- Environment of `scan_with_arp`: whether scapy imported, the outcome of
`scapy.srp` at each probed address (the hardware addresses of the
responders, or `Except.error` for a raised exception), and the reverse-DNS
result of `socket.gethostbyaddr` (`none` models `socket.herror`). -/
structure ArpEnv where
  available : Bool
  probe : Nat → Except String (List String)
  lookup : Nat → Option String

/-- The record built for one ARP responder (lines 127-141). -/
def arp_record (ip : Nat) (mac : String) (lookupRes : Option String) : DiscRecord :=
  { ip_address := ip
    hostname := lookupRes.getD "Unknown"
    mac_address := mac
    os := none
    open_ports := none
    discovery_method := "arp" }

/-- Python `IPv4Network.hosts()`: all usable host addresses.  For a
prefix of at most /30 these are the addresses strictly between the
network and broadcast addresses; /31 yields both addresses and /32 the
single address. -/
def ipv4HostsList (netw hostBits : Nat) : List Nat :=
  if hostBits = 0 then [netw]
  else if hostBits = 1 then [netw, netw + 1]
  else (List.range (2 ^ hostBits - 2)).map (fun i => netw + 1 + i)

/-- The `for ip in network.hosts()` loop of `scan_with_arp`
(lines 114-141): skip the network and broadcast addresses, probe the
rest; a raised exception is caught by the surrounding `try` at the scan
level, which returns `[]` while the records appended so far remain in
`self.discovered_devices`. -/
def arp_loop (env : ArpEnv) (netw broadcast : Nat) :
    List Nat → List DiscRecord → List DiscRecord × List DiscRecord
  | [], st => (st, st)
  | ip :: rest, st =>
    if ip = netw ∨ ip = broadcast then arp_loop env netw broadcast rest st
    else
      match env.probe ip with
      | .error _ => (st, [])
      | .ok macs =>
        arp_loop env netw broadcast rest
          (st ++ macs.map (fun m => arp_record ip m (env.lookup ip)))

/-- Translation of `NetworkDiscovery.scan_with_arp` (lines 99-147) on the
accumulated state `st`; the result is (new state, return value). -/
def scan_with_arp (env : ArpEnv) (netw hostBits : Nat) (st : List DiscRecord) :
    List DiscRecord × List DiscRecord :=
  if ¬env.available then (st, [])
  else arp_loop env netw (netw + 2 ^ hostBits - 1) (ipv4HostsList netw hostBits) st

/-- One discovery run over the two subnet-scanning methods in the order
`main` invokes them with `--all` (nmap scan, then ARP scan), returning
the final `self.discovered_devices` list. -/
def run_discovery (envN : NmapEnv) (envA : ArpEnv) (netw hostBits : Nat) :
    List DiscRecord :=
  (scan_with_arp envA netw hostBits (scan_with_nmap envN []).1).1

/-! ### HardwareAssessment (`hardware_analyzer.py`) -/

/-- One storage volume parsed from `df -h` by `_assess_via_ssh`. -/
structure StorageVol where
  filesystem : String
  size : String
  used : String
  available : String
  usage_percent : String
  mount_point : String
deriving DecidableEq, Repr

/-- The hardware/software profile produced by a successful
`_assess_via_ssh` run, as parsed from the remote commands.  The parsing
of the remote command output is environment I/O; the profile is supplied
by the environment at the granularity of the parsed values. -/
structure SshProfile where
  os_name : Option String
  os_version : Option String
  cpu_cores : Option String
  cpu_architecture : Option String
  memory_total_mb : Option String
  storage : List StorageVol
  virtualization_support : Bool
  docker_installed : Bool
deriving DecidableEq, Repr

/-- The hardware section produced by a successful `_assess_via_winrm`
run (WMI queries, numeric fields). -/
structure WinrmHardware where
  cores : Nat
  logical_processors : Nat
  architecture : Option Nat
  model : Option String
  memory_total_mb : Option Nat
  storage : List (String × Nat × Nat)
  virtualization_support : Bool
deriving DecidableEq, Repr

/-- The profile produced by a successful `_assess_via_winrm` run. -/
structure WinrmProfile where
  os_name : Option String
  os_version : Option String
  hw : WinrmHardware
  docker_installed : Bool
deriving DecidableEq, Repr

/-- The `hardware` section of an assessment: the ssh and WinRM paths
build differently shaped dictionaries. -/
inductive HardwareInfo where
  | sshHw : Option String → Option String → Option String → List StorageVol → Bool → HardwareInfo
  | winrmHw : WinrmHardware → HardwareInfo
deriving DecidableEq, Repr

/-- An assessment dictionary as returned by `assess_device`.  The
`assessment_timestamp` field is elided (wall-clock I/O). -/
structure Assessment where
  assessment_method : String
  os_name : Option String
  os_version : Option String
  os_type : Option String
  hardware : Option HardwareInfo
  software_docker : Option Bool
  network_open_ports : Option (List Nat)
deriving DecidableEq, Repr

/-- The assessment dictionary compiled by `_assess_via_ssh`
(lines 257-279). -/
def mk_ssh_assessment (p : SshProfile) : Assessment :=
  { assessment_method := "ssh"
    os_name := p.os_name
    os_version := p.os_version
    os_type := some "linux"
    hardware := some (.sshHw p.cpu_cores p.cpu_architecture p.memory_total_mb
      p.storage p.virtualization_support)
    software_docker := some p.docker_installed
    network_open_ports := none }

/-- The assessment dictionary compiled by `_assess_via_winrm`
(lines 364-384). -/
def mk_winrm_assessment (p : WinrmProfile) : Assessment :=
  { assessment_method := "winrm"
    os_name := p.os_name
    os_version := p.os_version
    os_type := some "windows"
    hardware := some (.winrmHw p.hw)
    software_docker := some p.docker_installed
    network_open_ports := none }

/-- Environment of the Assessment Engine for the probe layer and the two
introspection backends.  `portOpen ip port` is the outcome of
`_check_port_open` (its own `except` already folds an exception into
`False`); `ssh_profile`/`winrm_profile` give `none` when the backend
fails to connect or raises (caught inside `_assess_via_ssh` /
`_assess_via_winrm`, which then return `None`); `pingOk` is the outcome
of the ping liveness check of `_assess_via_basic_scan`. -/
structure ProbeEnv where
  paramikoAvailable : Bool
  wmiAvailable : Bool
  portOpen : String → Nat → Bool
  ssh_profile : String → Option SshProfile
  winrm_profile : String → Option WinrmProfile
  pingOk : String → Bool

/-- Ports probed by `_assess_via_basic_scan` (line 415). -/
def basicScanPorts : List Nat := [22, 23, 80, 443, 445, 3389, 5985]

/-- Translation of `HardwareAssessment._assess_via_basic_scan`
(lines 392-442). -/
def assess_via_basic_scan (env : ProbeEnv) (ip : String) : Option Assessment :=
  if ¬env.pingOk ip then none
  else
    let open_ports := basicScanPorts.filter (fun p => env.portOpen ip p)
    let ot :=
      if natMem 3389 open_ports || natMem 5985 open_ports then "windows"
      else if natMem 22 open_ports && !natMem 445 open_ports then "linux"
      else "unknown"
    some { assessment_method := "basic_scan"
           os_name := none
           os_version := none
           os_type := some ot
           hardware := none
           software_docker := none
           network_open_ports := some open_ports }

/-- The ssh attempt of `assess_device` (line 139-140): only made when
paramiko is importable and port 22 is open. -/
def ssh_step (env : ProbeEnv) (ip : String) : Option Assessment :=
  if env.paramikoAvailable && env.portOpen ip 22 then
    (env.ssh_profile ip).map mk_ssh_assessment
  else none

/-- The WinRM attempt of `assess_device` (line 143-144): only made when
the ssh attempt produced nothing, wmi is importable and port 5985 is
open. -/
def winrm_step (env : ProbeEnv) (ip : String) : Option Assessment :=
  if env.wmiAvailable && env.portOpen ip 5985 then
    (env.winrm_profile ip).map mk_winrm_assessment
  else none

/-- Translation of `HardwareAssessment.assess_device` (lines 125-153):
the prioritized fallback chain, terminal on first success. -/
def assess_device (env : ProbeEnv) (ip : String) : Option Assessment :=
  match ssh_step env ip with
  | some a => some a
  | none =>
    match winrm_step env ip with
    | some a => some a
    | none => assess_via_basic_scan env ip

/-- One element of the JSON device list fed to `assess_all_devices`.
`malformed` stands for a list element that is not a dictionary, on which
`device.get('ip_address')` raises `AttributeError`. -/
inductive InputItem where
  | dict : Device → InputItem
  | malformed : String → InputItem
deriving DecidableEq, Repr

/-- A record of `self.assessed_devices`: the original device record
merged with the assessment (`{**device, **assessment}`). -/
structure AssessedOut where
  dev : Device
  assessment : Assessment
deriving DecidableEq, Repr

/-- One iteration of the device loop of
`HardwareAssessment.assess_all_devices` (lines 107-121), including the
per-device `try`/`except`: an exception (here, a non-dictionary item)
skips only that device. -/
def assess_step (env : ProbeEnv) (acc : List AssessedOut) (item : InputItem) :
    List AssessedOut :=
  match item with
  | .malformed _ => acc
  | .dict d =>
    match d.ip_address with
    | none => acc
    | some ip =>
      if ip = "" then acc
      else
        match assess_device env ip with
        | none => acc
        | some a => acc ++ [{ dev := d, assessment := a }]

/-- Translation of `HardwareAssessment.assess_all_devices`
(lines 105-123). -/
def assess_all_devices (env : ProbeEnv) (items : List InputItem) : List AssessedOut :=
  items.foldl (assess_step env) []

/-! ### Entry points relevant to input-not-found handling -/

/-- A candidate input file: its modification time and the outcome of
`json.load` on it. -/
structure GenFileEntry where
  mtime : Nat
  parse : Except String (List Device)

/-- Filesystem environment of `generate_inventory.py`: whether the input
directory exists and the files matching the two glob patterns. -/
structure GenEnv where
  input_dir_exists : Bool
  assessment_files : List GenFileEntry
  discovery_files : List GenFileEntry
  save_ok : Bool

/-- Python `max(files, key=mtime)`: the first file of maximal
modification time. -/
def select_latest (f : GenFileEntry) (fs : List GenFileEntry) : GenFileEntry :=
  fs.foldl (fun best g => if best.mtime < g.mtime then g else best) f

/-- Translation of `InventoryGenerator.load_discovered_devices`
(lines 106-147): the returned flag, the loaded device list and the
messages printed on the way. -/
def load_discovered_devices (env : GenEnv) : Bool × List Device × List String :=
  if ¬env.input_dir_exists then
    (false, [], ["Input directory not found"])
  else
    match env.assessment_files with
    | f :: fs =>
      match (select_latest f fs).parse with
      | .error e => (false, [], ["Error loading hardware assessment file: " ++ e])
      | .ok devs => (!devs.isEmpty, devs, [])
    | [] =>
      match env.discovery_files with
      | [] => (false, [], ["No hardware assessment files found",
                           "No network discovery files found either"])
      | f :: fs =>
        match (select_latest f fs).parse with
        | .error e => (false, [], ["No hardware assessment files found",
                                   "Error loading network discovery file: " ++ e])
        | .ok devs => (!devs.isEmpty, devs, ["No hardware assessment files found"])

/-- Translation of `main` of `generate_inventory.py` (lines 336-363):
exit status and printed messages.  When loading succeeds the device list
is nonempty, so `generate_inventory` returns `True`; saving fails only
on a write error. -/
def gen_main (env : GenEnv) : Nat × List String :=
  match load_discovered_devices env with
  | (false, _, msgs) => (1, msgs ++ ["Failed to load discovered devices"])
  | (true, _, msgs) =>
    if env.save_ok then (0, msgs ++ ["Inventory generation completed successfully"])
    else (1, msgs ++ ["Failed to save inventory"])

/-- Filesystem environment of `hardware_analyzer.py`'s entry point. -/
structure HwEnv where
  explicit_file : Option String
  dir_exists : Bool
  discovery_files : List (String × Nat)
  file_exists : String → Bool
  load_file : String → Except String (List InputItem)
  probe : ProbeEnv
  save_ok : Bool

/-- Translation of `HardwareAssessment._find_inventory_file`
(lines 74-88). -/
def find_inventory_file (env : HwEnv) : Option String :=
  match env.explicit_file with
  | some f => some f
  | none =>
    if env.dir_exists then
      match env.discovery_files with
      | [] => none
      | f :: fs => some (fs.foldl (fun best g => if best.2 < g.2 then g else best) f).1
    else none

/-- Translation of `HardwareAssessment._load_inventory` (lines 90-103). -/
def load_inventory (env : HwEnv) : List InputItem × List String :=
  match find_inventory_file env with
  | none => ([], ["Inventory file not found: None"])
  | some f =>
    if ¬env.file_exists f then ([], ["Inventory file not found: " ++ f])
    else
      match env.load_file f with
      | .error e => ([], ["Error loading inventory file: " ++ e])
      | .ok items => (items, [])

/-- Translation of `main` of `hardware_analyzer.py` (lines 467-498):
exit status and printed messages.  `main` never calls `sys.exit`; the
only nonzero path is an uncaught exception escaping `save_results`
(which has no `try`).  With no assessed device, `save_results` is not
called and the function returns normally. -/
def hw_main (env : HwEnv) : Nat × List String :=
  let loaded := load_inventory env
  let assessed := assess_all_devices env.probe loaded.1
  if assessed.isEmpty then (0, loaded.2 ++ ["No devices were successfully assessed"])
  else if env.save_ok then (0, loaded.2)
  else (1, loaded.2)

/-! ### Concrete inputs used by witnesses and counterexamples -/

/-- A Linux web host whose hostname shortens to `web01`. -/
def devLinuxWeb : Device where
  ip_address := some "10.0.0.1"
  hostname := some (some "web01.alpha")
  operating_system := some { ostype := some "linux" }
  open_ports := none
  hardware := none

/-- A Windows host whose hostname also shortens to `web01`. -/
def devWindowsWeb : Device where
  ip_address := some "10.0.0.2"
  hostname := some (some "web01.beta")
  operating_system := some { ostype := some "windows" }
  open_ports := none
  hardware := none

/-- A device with no hostname, no OS data and no ports: classified `other`. -/
def devBare : Device where
  ip_address := some "10.0.0.9"
  hostname := none
  operating_system := none
  open_ports := none
  hardware := none

/-- A device whose `hostname` key is present with value `null`. -/
def devNullHostname : Device where
  ip_address := some "10.0.0.3"
  hostname := some none
  operating_system := none
  open_ports := none
  hardware := none

/-- A probe environment in which every port is closed, ping answers, and
both introspection backends are importable. -/
def probeAllClosed : ProbeEnv where
  paramikoAvailable := true
  wmiAvailable := true
  portOpen := fun _ _ => false
  ssh_profile := fun _ => none
  winrm_profile := fun _ => none
  pingOk := fun _ => true

/-- A probe environment in which every port is closed and ping gets no
answer. -/
def probePingDead : ProbeEnv where
  paramikoAvailable := true
  wmiAvailable := true
  portOpen := fun _ _ => false
  ssh_profile := fun _ => none
  winrm_profile := fun _ => none
  pingOk := fun _ => false

/-- An ARP environment over `0/29` in which the probe of host 1 raises
and host 2 would answer with one responder. -/
def arpEnvProbeErr : ArpEnv where
  available := true
  probe := fun ip => if ip == 1 then .error "OSError" else .ok (if ip == 2 then ["aa:bb"] else [])
  lookup := fun _ => none

/-- The same ARP environment with the probe of host 1 answering normally
(no responder). -/
def arpEnvNoErr : ArpEnv where
  available := true
  probe := fun ip => .ok (if ip == 2 then ["aa:bb"] else [])
  lookup := fun _ => none

/-- An nmap environment reporting the single host 5 with no OS match and
no open port. -/
def nmapEnvFive : NmapEnv where
  available := true
  scan := .ok [{ ip := 5, hostname := "", mac := none, osmatch := [], ports := [] }]

/-- An ARP environment over `0/28` in which host 5 answers. -/
def arpEnvFive : ArpEnv where
  available := true
  probe := fun ip => .ok (if ip == 5 then ["cc:dd"] else [])
  lookup := fun _ => none

/-- A filesystem environment for `generate_inventory.py` with an existing
but empty input directory. -/
def genEnvEmpty : GenEnv where
  input_dir_exists := true
  assessment_files := []
  discovery_files := []
  save_ok := true

/-- A filesystem environment for `hardware_analyzer.py` with no explicit
input file and an empty device-inventory directory. -/
def hwEnvEmpty : HwEnv where
  explicit_file := none
  dir_exists := true
  discovery_files := []
  file_exists := fun _ => false
  load_file := fun _ => .ok []
  probe := probeAllClosed
  save_ok := true

/-- Property of a dotted-decimal IP-address string: every character is a
digit or a dot. -/
abbrev dottedDigits (ip : String) : Prop := ∀ c ∈ ip.data, c.isDigit = true ∨ c = '.'

/-- Shape shared by every output of `_safe_hostname`: nonempty, every
character is fixed by the sanitizer and is not a dot, and the first
character is not a digit. -/
def normalizedShape (r : String) : Prop :=
  r.data ≠ [] ∧ (∀ c ∈ r.data, sanitizeChar c = c ∧ c ≠ '.') ∧ headIsDigit r = false

/-- The per-device placement shape of `_add_host_to_inventory`: exactly
the OS-family group of the device's OS type changes (gaining the host
key), at most the single tier/role group of the device's role changes,
and `ungrouped` changes only when the role is `ungrouped`. -/
def placementFrame (inv : Inventory) (d : Device) (ip role : String) : Prop :=
  (∀ g, g ≠ determine_os_type d →
      lookupA g (process_device inv d).osGroups = lookupA g inv.osGroups) ∧
  lookupA (determine_os_type d) (process_device inv d).osGroups =
    (lookupA (determine_os_type d) inv.osGroups).map
      (dictInsert (safe_hostname (hostnameArg d) ip)
        (build_host_vars (determine_os_type d) ip d)) ∧
  (∀ t r, role_tier role ≠ some t ∨ r ≠ role →
      lookupA (t, r) (process_device inv d).tierGroups = lookupA (t, r) inv.tierGroups) ∧
  (role = "ungrouped" → (process_device inv d).tierGroups = inv.tierGroups ∧
      (process_device inv d).ungrouped =
        dictInsert (safe_hostname (hostnameArg d) ip)
          (build_host_vars (determine_os_type d) ip d) inv.ungrouped) ∧
  (role ≠ "ungrouped" → (process_device inv d).ungrouped = inv.ungrouped)

/-! ## Helper lemmas on the dictionary model -/

theorem lookupA_updateA {K V : Type} [DecidableEq K] (k k' : K) (f : V → V)
    (l : List (K × V)) :
    lookupA k (updateA k' f l) =
      if k' = k then (lookupA k l).map f else lookupA k l := by
  induction l with
  | nil => by_cases h : k' = k <;> simp [updateA, lookupA, h]
  | cons p r ih =>
    obtain ⟨k2, v⟩ := p
    by_cases h2 : k2 = k'
    · subst h2
      by_cases h3 : k2 = k
      · subst h3
        simp [updateA, lookupA]
      · have h4 : k2 ≠ k := h3
        simp [updateA, lookupA, h4]
    · by_cases h3 : k2 = k
      · subst h3
        have h4 : k' ≠ k2 := fun he => h2 he.symm
        simp [updateA, lookupA, h2, h4]
      · simp [updateA, lookupA, h2, h3, ih]

theorem lookupA_append {K V : Type} [DecidableEq K] (k : K) (l1 l2 : List (K × V)) :
    lookupA k (l1 ++ l2) =
      match lookupA k l1 with
      | some v => some v
      | none => lookupA k l2 := by
  induction l1 with
  | nil => simp [lookupA]
  | cons p r ih =>
    obtain ⟨k2, v⟩ := p
    by_cases h : k2 = k <;> simp [lookupA, h, ih]

theorem lookupA_eq_none {K V : Type} [DecidableEq K] (k : K) (l : List (K × V))
    (h : ∀ p ∈ l, p.1 ≠ k) : lookupA k l = none := by
  induction l with
  | nil => rfl
  | cons p r ih =>
    obtain ⟨k2, v⟩ := p
    have hk : k2 ≠ k := h (k2, v) (by simp)
    simp [lookupA, hk]
    exact ih (fun q hq => h q (by simp [hq]))

/-! ## C10: a null hostname silently excludes the device -/

/-- C10: for every input device whose `hostname` field is present but
`null`, inventory generation silently excludes the device from the whole
tree: `_determine_device_role` raises `AttributeError` on
`None.lower()`, the per-device handler catches it, and the device loop
step leaves the inventory unchanged. -/
theorem c10_null_hostname_excluded (inv : Inventory) (d : Device)
    (l1 l2 : List Device) (h : d.hostname = some none) :
    process_device inv d = inv ∧
    generate_inventory (l1 ++ d :: l2) = generate_inventory (l1 ++ l2) := by
  have hstep : ∀ inv' : Inventory, process_device inv' d = inv' := by
    intro inv'
    unfold process_device
    cases hip : d.ip_address with
    | none => rfl
    | some ip =>
      by_cases hie : ip = ""
      · simp [hie]
      · simp [hie, determine_device_role, h]
  refine ⟨hstep inv, ?_⟩
  unfold generate_inventory
  rw [List.foldl_append, List.foldl_append, List.foldl_cons, hstep]

/-- Witness for `c10_null_hostname_excluded` at the concrete device
`devNullHostname`. -/
theorem c10_null_hostname_excluded_witness :
    process_device base_inventory devNullHostname = base_inventory ∧
    generate_inventory ([devLinuxWeb] ++ devNullHostname :: [devBare]) =
      generate_inventory ([devLinuxWeb] ++ [devBare]) :=
  c10_null_hostname_excluded base_inventory devNullHostname [devLinuxWeb] [devBare] rfl

/-! ## C2: host keys collide across distinct devices -/

/-- C2 counterexample: two distinct input devices (`web01.alpha` on
`10.0.0.1`, Linux; `web01.beta` on `10.0.0.2`, Windows) normalize to the
same host key `web01`, and that single key ends up in two OS-family
groups of the produced tree — against both the claimed key uniqueness
and the claimed exactly-one-OS-family-group placement. -/
theorem c2_counterexample :
    devLinuxWeb ≠ devWindowsWeb ∧
    safe_hostname (hostnameArg devLinuxWeb) "10.0.0.1" =
      safe_hostname (hostnameArg devWindowsWeb) "10.0.0.2" ∧
    lookupA "linux" (generate_inventory [devLinuxWeb, devWindowsWeb]).osGroups =
      some [("web01", build_host_vars "linux" "10.0.0.1" devLinuxWeb)] ∧
    lookupA "windows" (generate_inventory [devLinuxWeb, devWindowsWeb]).osGroups =
      some [("web01", build_host_vars "windows" "10.0.0.2" devWindowsWeb)] := by
  refine ⟨by decide, by decide, by decide, by decide⟩

theorem add_host_osGroups (inv : Inventory) (hn ip ost role : String) (d : Device) :
    (add_host_to_inventory inv hn ip ost role d).osGroups =
      updateA ost (dictInsert hn (build_host_vars ost ip d)) inv.osGroups := by
  unfold add_host_to_inventory
  by_cases h : role = "ungrouped"
  · simp [h]
  · simp [h]
    cases role_tier role <;> simp

theorem add_host_ungrouped_eq (inv : Inventory) (hn ip ost role : String) (d : Device)
    (h : role = "ungrouped") :
    (add_host_to_inventory inv hn ip ost role d).ungrouped =
      dictInsert hn (build_host_vars ost ip d) inv.ungrouped ∧
    (add_host_to_inventory inv hn ip ost role d).tierGroups = inv.tierGroups := by
  subst h
  simp [add_host_to_inventory]

theorem add_host_role_ne (inv : Inventory) (hn ip ost role : String) (d : Device)
    (h : role ≠ "ungrouped") :
    (add_host_to_inventory inv hn ip ost role d).ungrouped = inv.ungrouped ∧
    (add_host_to_inventory inv hn ip ost role d).tierGroups =
      (match role_tier role with
       | some tier => updateA (tier, role) (dictInsert hn ([] : HostVars)) inv.tierGroups
       | none => inv.tierGroups) := by
  simp [add_host_to_inventory, h]
  cases role_tier role <;> simp

theorem process_device_eq_add (inv : Inventory) (d : Device) (ip role : String)
    (hip : d.ip_address = some ip) (hne : ip ≠ "")
    (hrole : determine_device_role d = .ok role) :
    process_device inv d =
      add_host_to_inventory inv (safe_hostname (hostnameArg d) ip) ip
        (determine_os_type d) role d := by
  simp [process_device, hip, hne, hrole]

/-- C2 amended: host keys are not globally unique (see the
counterexample), but every successfully processed device is placed in
exactly one OS-family group and in at most one tier/role group, with
devices of role `ungrouped` touching only `ungrouped`: one device-loop
step changes no other part of the tree. -/
theorem c2_amended_per_device_placement (inv : Inventory) (d : Device) (ip role : String)
    (hip : d.ip_address = some ip) (hne : ip ≠ "")
    (hrole : determine_device_role d = .ok role) :
    placementFrame inv d ip role := by
  have hpd := process_device_eq_add inv d ip role hip hne hrole
  refine ⟨?_, ?_, ?_, ?_, ?_⟩
  · intro g hg
    rw [hpd, add_host_osGroups, lookupA_updateA,
      if_neg (fun he : determine_os_type d = g => hg he.symm)]
  · rw [hpd, add_host_osGroups, lookupA_updateA]
    simp
  · intro t r hdisj
    by_cases hu : role = "ungrouped"
    · rw [hpd, (add_host_ungrouped_eq inv _ ip _ role d hu).2]
    · rw [hpd, (add_host_role_ne inv _ ip _ role d hu).2]
      cases htier : role_tier role with
      | none => rfl
      | some tier =>
        rw [lookupA_updateA]
        have hne2 : (tier, role) ≠ (t, r) := by
          intro he
          rcases hdisj with h1 | h2
          · rw [htier] at h1
            exact h1 (by rw [(Prod.mk.injEq _ _ _ _).mp he |>.1])
          · exact h2 ((Prod.mk.injEq _ _ _ _).mp he |>.2.symm)
        simp [hne2]
  · intro hu
    exact ⟨by rw [hpd, (add_host_ungrouped_eq inv _ ip _ role d hu).2],
           by rw [hpd, (add_host_ungrouped_eq inv _ ip _ role d hu).1]⟩
  · intro hu
    rw [hpd, (add_host_role_ne inv _ ip _ role d hu).1]

/-- Witness for `c2_amended_per_device_placement` at the concrete device
`devLinuxWeb` (role `ungrouped`). -/
theorem c2_amended_per_device_placement_witness :
    placementFrame base_inventory devLinuxWeb "10.0.0.1" "ungrouped" :=
  c2_amended_per_device_placement base_inventory devLinuxWeb "10.0.0.1" "ungrouped"
    rfl (by decide) rfl

/-! ## C4: connection transport by OS family -/

/-- C4 counterexample: the device `devBare` is placed (under OS family
`other`) with host variables containing no `ansible_connection` at all,
against the claim that every non-windows placement carries the shell
transport `ssh`. -/
theorem c4_counterexample :
    determine_os_type devBare = "other" ∧
    lookupA "other" (generate_inventory [devBare]).osGroups =
      some [("host_10_0_0_9", [("ansible_host", HVal.str "10.0.0.9")])] ∧
    lookupA "ansible_connection" (build_host_vars "other" "10.0.0.9" devBare) = none := by
  refine ⟨rfl, by decide, rfl⟩

theorem lookupA_hw_vars_conn (d : Device) :
    lookupA "ansible_connection" (hw_vars d) = none := by
  rcases d with ⟨ip, hn, os, op, hw⟩
  cases hw with
  | none => rfl
  | some h =>
    rcases h with ⟨cpu, mem, virt⟩
    cases cpu <;> cases mem <;> cases virt <;> rfl

theorem lookupA_hw_vars_cert (d : Device) :
    lookupA "ansible_winrm_server_cert_validation" (hw_vars d) = none := by
  rcases d with ⟨ip, hn, os, op, hw⟩
  cases hw with
  | none => rfl
  | some h =>
    rcases h with ⟨cpu, mem, virt⟩
    cases cpu <;> cases mem <;> cases virt <;> rfl

/-- C4 amended: the emitted connection transport is `winrm` for the
`windows` family (together with the cert-validation default) and `ssh`
for the `linux` and `macos` families only; the `network_devices` and
`other` families get no connection variable.  The tier/role-group entry
of a placed device always carries the empty variable mapping. -/
theorem c4_amended_connection_vars (os ip : String) (d : Device) (inv : Inventory)
    (hn role tier : String) :
    lookupA "ansible_connection" (build_host_vars os ip d) =
      (if os = "windows" then some (HVal.str "winrm")
       else if os = "linux" ∨ os = "macos" then some (HVal.str "ssh")
       else none) ∧
    (os = "windows" →
      lookupA "ansible_winrm_server_cert_validation" (build_host_vars os ip d) =
        some (HVal.str "ignore")) ∧
    (role_tier role = some tier → role ≠ "ungrouped" →
      lookupA (tier, role) (add_host_to_inventory inv hn ip os role d).tierGroups =
        (lookupA (tier, role) inv.tierGroups).map (dictInsert hn ([] : HostVars))) := by
  refine ⟨?_, ?_, ?_⟩
  · unfold build_host_vars
    rw [lookupA_append,
      lookupA_append "ansible_connection" [("ansible_host", HVal.str ip)] (conn_vars os)]
    by_cases hw : os = "windows"
    · simp [conn_vars, hw, lookupA]
    · by_cases hl : os = "linux" ∨ os = "macos"
      · simp [conn_vars, hw, hl, lookupA]
      · simp [conn_vars, hw, hl, lookupA, lookupA_hw_vars_conn d]
  · intro hw
    unfold build_host_vars
    rw [lookupA_append, lookupA_append "ansible_winrm_server_cert_validation"
      [("ansible_host", HVal.str ip)] (conn_vars os)]
    simp [conn_vars, hw, lookupA]
  · intro htier hu
    rw [(add_host_role_ne inv hn ip os role d hu).2, htier, lookupA_updateA, if_pos rfl]

/-- Witness for `c4_amended_connection_vars` with `os = "windows"` and
role `network` (tier `tier1_core`). -/
theorem c4_amended_connection_vars_witness :
    lookupA "ansible_connection" (build_host_vars "windows" "10.0.0.9" devBare) =
      (if ("windows" : String) = "windows" then some (HVal.str "winrm")
       else if ("windows" : String) = "linux" ∨ ("windows" : String) = "macos" then
         some (HVal.str "ssh")
       else none) ∧
    (("windows" : String) = "windows" →
      lookupA "ansible_winrm_server_cert_validation"
          (build_host_vars "windows" "10.0.0.9" devBare) =
        some (HVal.str "ignore")) ∧
    (role_tier "network" = some "tier1_core" → ("network" : String) ≠ "ungrouped" →
      lookupA ("tier1_core", "network")
          (add_host_to_inventory base_inventory "web01" "10.0.0.9" "windows" "network"
            devBare).tierGroups =
        (lookupA ("tier1_core", "network") base_inventory.tierGroups).map
          (dictInsert "web01" ([] : HostVars))) :=
  c4_amended_connection_vars "windows" "10.0.0.9" devBare base_inventory "web01"
    "network" "tier1_core"

/-! ## C6: hostname normalization -/

theorem str_eq_empty_iff {s : String} : s = "" ↔ s.data = [] := by
  constructor
  · intro h
    subst h
    rfl
  · intro h
    exact String.ext h

theorem sanitizeChar_fix (c : Char) : sanitizeChar (sanitizeChar c) = sanitizeChar c := by
  unfold sanitizeChar
  by_cases h : c.isAlphanum || c = '-' || c = '_'
  · simp [h]
  · simp [h]

theorem sanitizeChar_ne_dot (c : Char) : sanitizeChar c ≠ '.' := by
  unfold sanitizeChar
  by_cases h : c.isAlphanum || c = '-' || c = '_'
  · simp only [h, if_true]
    intro he
    subst he
    revert h
    decide
  · simp [h]

theorem map_all_id {α : Type} (f : α → α) (l : List α) (h : ∀ a ∈ l, f a = a) :
    l.map f = l := by
  induction l with
  | nil => rfl
  | cons a t ih =>
    simp only [List.map_cons, h a (by simp)]
    rw [ih (fun b hb => h b (by simp [hb]))]

theorem digit_ne_dot {c : Char} (h : c.isDigit = true) : c ≠ '.' := by
  intro he
  subst he
  revert h
  decide

theorem sanitizeChar_digit {c : Char} (h : c.isDigit = true) : sanitizeChar c = c := by
  unfold sanitizeChar
  simp [Char.isAlphanum, h]

theorem fallback_shape (ip : String) (hip : dottedDigits ip) :
    normalizedShape ("host_" ++ pyReplaceDot ip) := by
  have hdata : ("host_" ++ pyReplaceDot ip).data =
      'h' :: 'o' :: 's' :: 't' :: '_' :: ip.data.map (fun c => if c = '.' then '_' else c) := by
    rw [String.data_append]
    rfl
  refine ⟨by rw [hdata]; simp, ?_, ?_⟩
  · intro c hc
    rw [hdata] at hc
    simp only [List.mem_cons] at hc
    rcases hc with rfl | rfl | rfl | rfl | rfl | hc
    · exact ⟨by decide, by decide⟩
    · exact ⟨by decide, by decide⟩
    · exact ⟨by decide, by decide⟩
    · exact ⟨by decide, by decide⟩
    · exact ⟨by decide, by decide⟩
    · obtain ⟨c0, hc0, rfl⟩ := List.mem_map.mp hc
      by_cases hd : c0 = '.'
      · rw [if_pos hd]
        exact ⟨by decide, by decide⟩
      · rw [if_neg hd]
        rcases hip c0 hc0 with hdig | hdot
        · exact ⟨sanitizeChar_digit hdig, digit_ne_dot hdig⟩
        · exact absurd hdot hd
  · unfold headIsDigit
    rw [hdata]
    rfl

theorem sanitize_image_shape (c : Char) (base : List Char)
    (hc : c ∈ base.map sanitizeChar) : sanitizeChar c = c ∧ c ≠ '.' := by
  obtain ⟨c0, _, rfl⟩ := List.mem_map.mp hc
  exact ⟨sanitizeChar_fix c0, sanitizeChar_ne_dot c0⟩

theorem safe_name_shape (h : String) (hne : safe_name_of h ≠ "") :
    normalizedShape (safe_name_of h) := by
  unfold safe_name_of at hne ⊢
  by_cases hpre : pySanitize (pySplitDotHead h) ≠ "" ∧
      headIsDigit (pySanitize (pySplitDotHead h)) = true
  · rw [if_pos (by simpa using hpre)] at hne ⊢
    have hdata : ("host_" ++ pySanitize (pySplitDotHead h)).data =
        'h' :: 'o' :: 's' :: 't' :: '_' ::
          (pySplitDotHead h).data.map sanitizeChar := by
      rw [String.data_append]
      rfl
    refine ⟨by rw [hdata]; simp, ?_, ?_⟩
    · intro c hc
      rw [hdata] at hc
      simp only [List.mem_cons] at hc
      rcases hc with rfl | rfl | rfl | rfl | rfl | hc
      · exact ⟨by decide, by decide⟩
      · exact ⟨by decide, by decide⟩
      · exact ⟨by decide, by decide⟩
      · exact ⟨by decide, by decide⟩
      · exact ⟨by decide, by decide⟩
      · exact sanitize_image_shape c _ hc
    · unfold headIsDigit
      rw [hdata]
      rfl
  · rw [if_neg (by simpa using hpre)] at hne ⊢
    refine ⟨fun he => hne (String.ext he), ?_, ?_⟩
    · intro c hc
      exact sanitize_image_shape c _ hc
    · rcases (not_and_or.mp hpre) with h1 | h2
      · exact absurd hne (by simpa using h1)
      · simpa using h2

theorem safe_hostname_some (h ip : String) :
    safe_hostname (some h) ip =
      (if h ≠ "" ∧ pyLower h ≠ "unknown" then
        if safe_name_of h ≠ "" then safe_name_of h else "host_" ++ pyReplaceDot ip
      else "host_" ++ pyReplaceDot ip) := rfl

theorem safe_hostname_shape (h ip : String) (hip : dottedDigits ip) :
    normalizedShape (safe_hostname (some h) ip) := by
  rw [safe_hostname_some]
  by_cases hc : h ≠ "" ∧ pyLower h ≠ "unknown"
  · rw [if_pos hc]
    by_cases hn : safe_name_of h ≠ ""
    · rw [if_pos hn]
      exact safe_name_shape h hn
    · rw [if_neg hn]
      exact fallback_shape ip hip
  · rw [if_neg hc]
    exact fallback_shape ip hip

theorem safe_hostname_fixed (r ip : String) (hr : normalizedShape r)
    (hu : pyLower r ≠ "unknown") : safe_hostname (some r) ip = r := by
  obtain ⟨hne, hchars, hdig⟩ := hr
  have hrne : r ≠ "" := fun he => hne (str_eq_empty_iff.mp he)
  have hsplit : pySplitDotHead r = r := by
    apply String.ext
    show r.data.takeWhile (fun c => c ≠ '.') = r.data
    rw [List.takeWhile_eq_self_iff]
    intro c hc
    simpa using (hchars c hc).2
  have hsan : pySanitize (pySplitDotHead r) = r := by
    rw [hsplit]
    apply String.ext
    show r.data.map sanitizeChar = r.data
    exact map_all_id sanitizeChar r.data (fun c hc => (hchars c hc).1)
  have hsn : safe_name_of r = r := by
    unfold safe_name_of
    rw [hsan, if_neg]
    intro hand
    rw [hdig] at hand
    exact Bool.false_ne_true hand.2
  rw [safe_hostname_some, if_pos ⟨hrne, hu⟩, hsn, if_pos hrne]

/-- C6 counterexample: the hostname `Unknown.example.com` normalizes to
`Unknown`, but normalizing `Unknown` again falls back to the IP-derived
key `host_10_0_0_1` — normalization is not idempotent on names whose
normal form is the (case-insensitive) `unknown` sentinel. -/
theorem c6_counterexample :
    safe_hostname (some "Unknown.example.com") "10.0.0.1" = "Unknown" ∧
    safe_hostname (some "Unknown") "10.0.0.1" = "host_10_0_0_1" ∧
    ("host_10_0_0_1" : String) ≠ "Unknown" := by
  refine ⟨by decide, by decide, by decide⟩

/-- C6 amended: for a dotted-decimal IP address, normalization is
idempotent on every hostname whose normal form is not the
(case-insensitive) `unknown` sentinel; a name starting with a digit
always gains the fixed `host_` prefix, and in particular `3dprinter`
normalizes to `host_3dprinter`. -/
theorem c6_normalization_idempotent (h ip : String) (hip : dottedDigits ip)
    (hres : pyLower (safe_hostname (some h) ip) ≠ "unknown") :
    safe_hostname (some (safe_hostname (some h) ip)) ip = safe_hostname (some h) ip ∧
    (h ≠ "" → pyLower h ≠ "unknown" → headIsDigit h = true →
      safe_hostname (some h) ip = "host_" ++ pySanitize (pySplitDotHead h)) ∧
    safe_hostname (some "3dprinter") ip = "host_3dprinter" := by
  refine ⟨?_, ?_, ?_⟩
  · exact safe_hostname_fixed _ ip (safe_hostname_shape h ip hip) hres
  · intro hne hunk hdig
    obtain ⟨c, rest, hdat, hcdig⟩ : ∃ c rest, h.data = c :: rest ∧ c.isDigit = true := by
      unfold headIsDigit at hdig
      cases hd : h.data with
      | nil => rw [hd] at hdig; exact absurd hdig (by decide)
      | cons c rest => rw [hd] at hdig; exact ⟨c, rest, rfl, hdig⟩
    have hsplit : (pySplitDotHead h).data = c :: rest.takeWhile (fun x => x ≠ '.') := by
      show h.data.takeWhile (fun x => x ≠ '.') = _
      rw [hdat]
      simp [List.takeWhile_cons, digit_ne_dot hcdig]
    have hs1 : (pySanitize (pySplitDotHead h)).data =
        c :: (rest.takeWhile (fun x => x ≠ '.')).map sanitizeChar := by
      show (pySplitDotHead h).data.map sanitizeChar = _
      rw [hsplit]
      simp [sanitizeChar_digit hcdig]
    have hs1ne : pySanitize (pySplitDotHead h) ≠ "" := by
      intro he
      rw [str_eq_empty_iff] at he
      rw [hs1] at he
      exact List.cons_ne_nil _ _ he
    have hs1dig : headIsDigit (pySanitize (pySplitDotHead h)) = true := by
      unfold headIsDigit
      rw [hs1]
      exact hcdig
    have hsn : safe_name_of h = "host_" ++ pySanitize (pySplitDotHead h) := by
      unfold safe_name_of
      rw [if_pos ⟨hs1ne, hs1dig⟩]
    have hsnne : safe_name_of h ≠ "" := by
      rw [hsn]
      intro he
      rw [str_eq_empty_iff, String.data_append] at he
      exact absurd (List.append_eq_nil.mp he).1 (by decide)
    rw [safe_hostname_some, if_pos ⟨hne, hunk⟩, if_pos hsnne, hsn]
  · rw [safe_hostname_some]
    rw [if_pos (by decide : ("3dprinter" : String) ≠ "" ∧ pyLower "3dprinter" ≠ "unknown")]
    rw [if_pos (by decide : safe_name_of "3dprinter" ≠ "")]
    decide

/-- Witness for `c6_normalization_idempotent` at the hostname
`web01.example.com` and address `10.0.0.5`. -/
theorem c6_normalization_idempotent_witness :
    safe_hostname (some (safe_hostname (some "web01.example.com") "10.0.0.5")) "10.0.0.5" =
      safe_hostname (some "web01.example.com") "10.0.0.5" ∧
    (("web01.example.com" : String) ≠ "" → pyLower "web01.example.com" ≠ "unknown" →
      headIsDigit "web01.example.com" = true →
      safe_hostname (some "web01.example.com") "10.0.0.5" =
        "host_" ++ pySanitize (pySplitDotHead "web01.example.com")) ∧
    safe_hostname (some "3dprinter") "10.0.0.5" = "host_3dprinter" :=
  c6_normalization_idempotent "web01.example.com" "10.0.0.5" (by decide) (by decide)

/-! ## C5: exhaustive fallback to the basic scan -/

theorem natMem_filter (n : Nat) (f : Nat → Bool) (l : List Nat) :
    natMem n (l.filter f) = (natMem n l && f n) := by
  induction l with
  | nil => rfl
  | cons a t ih =>
    by_cases hfa : f a
    · by_cases hna : n = a
      · subst hna
        simp [List.filter_cons, hfa, natMem, ih]
      · have : (n == a) = false := by simp [hna]
        simp [List.filter_cons, hfa, natMem, this, ih]
    · by_cases hna : n = a
      · subst hna
        simp [List.filter_cons, hfa, natMem, ih]
      · have : (n == a) = false := by simp [hna]
        simp [List.filter_cons, hfa, natMem, this, ih]

/-- C5: for a device unreachable by ssh (port 22 closed) and by the
management protocol (port 5985 closed) but answering ping, the fallback
chain terminates in the basic scan: the assessment has
`assessment_method = "basic_scan"`, no `hardware` section, and an OS
type inferred by the port rule (3389 or 5985 open ⇒ windows; 22 open
and 445 closed ⇒ linux; otherwise unknown). -/
theorem c5_basic_scan_fallback (env : ProbeEnv) (ip : String)
    (h22 : env.portOpen ip 22 = false) (h5985 : env.portOpen ip 5985 = false)
    (hping : env.pingOk ip = true) :
    assess_device env ip = some
      { assessment_method := "basic_scan"
        os_name := none
        os_version := none
        os_type := some
          (if env.portOpen ip 3389 || env.portOpen ip 5985 then "windows"
           else if env.portOpen ip 22 && !env.portOpen ip 445 then "linux"
           else "unknown")
        hardware := none
        software_docker := none
        network_open_ports := some (basicScanPorts.filter (fun p => env.portOpen ip p)) } := by
  have hssh : ssh_step env ip = none := by
    unfold ssh_step
    simp [h22]
  have hwin : winrm_step env ip = none := by
    unfold winrm_step
    simp [h5985]
  unfold assess_device
  rw [hssh, hwin]
  unfold assess_via_basic_scan
  rw [hping]
  simp only [Bool.not_true, if_neg (by simp : ¬(true = false))]
  have hm : ∀ p, natMem p (basicScanPorts.filter (fun q => env.portOpen ip q)) =
      (natMem p basicScanPorts && env.portOpen ip p) := fun p => natMem_filter p _ _
  rw [hm 3389, hm 5985, hm 22, hm 445]
  simp [basicScanPorts, natMem, h22, h5985]

/-- Witness for `c5_basic_scan_fallback` in the environment with every
port closed and ping answering. -/
theorem c5_basic_scan_fallback_witness :
    assess_device probeAllClosed "10.0.0.5" = some
      { assessment_method := "basic_scan"
        os_name := none
        os_version := none
        os_type := some
          (if probeAllClosed.portOpen "10.0.0.5" 3389 || probeAllClosed.portOpen "10.0.0.5" 5985
           then "windows"
           else if probeAllClosed.portOpen "10.0.0.5" 22 && !probeAllClosed.portOpen "10.0.0.5" 445
           then "linux"
           else "unknown")
        hardware := none
        software_docker := none
        network_open_ports :=
          some (basicScanPorts.filter (fun p => probeAllClosed.portOpen "10.0.0.5" p)) } :=
  c5_basic_scan_fallback probeAllClosed "10.0.0.5" rfl rfl rfl

/-! ## C7: ping-unresponsive devices are dropped; exceptions stay per-device -/

theorem foldl_skip {α β : Type} (f : β → α → β) (x : α) (l1 l2 : List α) (b : β)
    (hx : ∀ acc, f acc x = acc) :
    (l1 ++ x :: l2).foldl f b = (l1 ++ l2).foldl f b := by
  rw [List.foldl_append, List.foldl_append, List.foldl_cons, hx]

/-- C7: a device that answers neither the ssh attempt nor the WinRM
attempt and does not respond to ping produces no assessment record — it
is absent from the assessed set, not marked as failed — and one
malformed item (whose processing raises inside the loop) is skipped
without affecting the rest of the batch. -/
theorem c7_unresponsive_dropped (env : ProbeEnv) (d : Device) (ip s : String)
    (items1 items2 : List InputItem)
    (hip : d.ip_address = some ip)
    (hssh : ssh_step env ip = none) (hwin : winrm_step env ip = none)
    (hping : env.pingOk ip = false) :
    assess_device env ip = none ∧
    assess_all_devices env (items1 ++ InputItem.dict d :: items2) =
      assess_all_devices env (items1 ++ items2) ∧
    assess_all_devices env (items1 ++ InputItem.malformed s :: items2) =
      assess_all_devices env (items1 ++ items2) := by
  have hdev : assess_device env ip = none := by
    unfold assess_device
    rw [hssh, hwin]
    unfold assess_via_basic_scan
    rw [hping]
    simp
  refine ⟨hdev, ?_, ?_⟩
  · unfold assess_all_devices
    refine foldl_skip _ _ _ _ _ (fun acc => ?_)
    simp [assess_step, hip, hdev]
  · unfold assess_all_devices
    exact foldl_skip _ _ _ _ _ (fun acc => rfl)

/-- Witness for `c7_unresponsive_dropped`: `devBare` in the environment
where nothing answers, inside a batch containing one well-formed and one
malformed companion item. -/
theorem c7_unresponsive_dropped_witness :
    assess_device probePingDead "10.0.0.9" = none ∧
    assess_all_devices probePingDead
        ([InputItem.dict devLinuxWeb] ++ InputItem.dict devBare :: [InputItem.malformed "x"]) =
      assess_all_devices probePingDead
        ([InputItem.dict devLinuxWeb] ++ [InputItem.malformed "x"]) ∧
    assess_all_devices probePingDead
        ([InputItem.dict devLinuxWeb] ++ InputItem.malformed "y" :: [InputItem.malformed "x"]) =
      assess_all_devices probePingDead
        ([InputItem.dict devLinuxWeb] ++ [InputItem.malformed "x"]) :=
  c7_unresponsive_dropped probePingDead devBare "10.0.0.9" "y"
    [InputItem.dict devLinuxWeb] [InputItem.malformed "x"] rfl rfl rfl rfl

/-! ## Loop lemmas for the ARP scan -/

theorem arp_loop_skip (env : ArpEnv) (netw broadcast ip : Nat) (rest : List Nat)
    (st : List DiscRecord) (h : ip = netw ∨ ip = broadcast) :
    arp_loop env netw broadcast (ip :: rest) st =
      arp_loop env netw broadcast rest st := by
  simp [arp_loop, h]

theorem arp_loop_err (env : ArpEnv) (netw broadcast ip : Nat) (rest : List Nat)
    (st : List DiscRecord) (e : String) (h : ¬(ip = netw ∨ ip = broadcast))
    (hp : env.probe ip = .error e) :
    arp_loop env netw broadcast (ip :: rest) st = (st, []) := by
  simp [arp_loop, h, hp]

theorem arp_loop_ok (env : ArpEnv) (netw broadcast ip : Nat) (rest : List Nat)
    (st : List DiscRecord) (macs : List String) (h : ¬(ip = netw ∨ ip = broadcast))
    (hp : env.probe ip = .ok macs) :
    arp_loop env netw broadcast (ip :: rest) st =
      arp_loop env netw broadcast rest
        (st ++ macs.map (fun m => arp_record ip m (env.lookup ip))) := by
  simp [arp_loop, h, hp]

theorem arp_loop_mem (env : ArpEnv) (netw broadcast : Nat) (hosts : List Nat)
    (st : List DiscRecord) (r : DiscRecord)
    (hr : r ∈ (arp_loop env netw broadcast hosts st).1) :
    r ∈ st ∨ ∃ ip ∈ hosts, ip ≠ netw ∧ ip ≠ broadcast ∧ r.ip_address = ip ∧
      r.discovery_method = "arp" := by
  induction hosts generalizing st with
  | nil => exact Or.inl (by simpa [arp_loop] using hr)
  | cons ip rest ih =>
    by_cases hskip : ip = netw ∨ ip = broadcast
    · rw [arp_loop_skip env netw broadcast ip rest st hskip] at hr
      rcases ih st hr with h1 | ⟨ip2, hip2, h3⟩
      · exact Or.inl h1
      · exact Or.inr ⟨ip2, List.mem_cons_of_mem _ hip2, h3⟩
    · cases hp : env.probe ip with
      | error e =>
        rw [arp_loop_err env netw broadcast ip rest st e hskip hp] at hr
        exact Or.inl hr
      | ok macs =>
        rw [arp_loop_ok env netw broadcast ip rest st macs hskip hp] at hr
        have hnn := not_or.mp hskip
        rcases ih _ hr with h1 | ⟨ip2, hip2, h3⟩
        · rcases List.mem_append.mp h1 with h2 | h2
          · exact Or.inl h2
          · obtain ⟨m, _, rfl⟩ := List.mem_map.mp h2
            exact Or.inr ⟨ip, by simp, hnn.1, hnn.2, rfl, rfl⟩
        · exact Or.inr ⟨ip2, by simp [hip2], h3⟩

theorem arp_loop_ret_sub (env : ArpEnv) (netw broadcast : Nat) (hosts : List Nat)
    (st : List DiscRecord) (r : DiscRecord)
    (hr : r ∈ (arp_loop env netw broadcast hosts st).2) :
    r ∈ (arp_loop env netw broadcast hosts st).1 := by
  induction hosts generalizing st with
  | nil => simpa [arp_loop] using hr
  | cons ip rest ih =>
    by_cases hskip : ip = netw ∨ ip = broadcast
    · rw [arp_loop_skip env netw broadcast ip rest st hskip] at hr ⊢
      exact ih st hr
    · cases hp : env.probe ip with
      | error e =>
        rw [arp_loop_err env netw broadcast ip rest st e hskip hp] at hr
        simp at hr
      | ok macs =>
        rw [arp_loop_ok env netw broadcast ip rest st macs hskip hp] at hr ⊢
        exact ih _ hr

theorem arp_loop_mono (env : ArpEnv) (netw broadcast : Nat) (hosts : List Nat)
    (st : List DiscRecord) (r : DiscRecord)
    (hok : ∀ j, ∃ ms, env.probe j = .ok ms) (hr : r ∈ st) :
    r ∈ (arp_loop env netw broadcast hosts st).1 := by
  induction hosts generalizing st with
  | nil => simpa [arp_loop] using hr
  | cons ip rest ih =>
    by_cases hskip : ip = netw ∨ ip = broadcast
    · rw [arp_loop_skip env netw broadcast ip rest st hskip]
      exact ih st hr
    · obtain ⟨ms, hms⟩ := hok ip
      rw [arp_loop_ok env netw broadcast ip rest st ms hskip hms]
      exact ih _ (List.mem_append.mpr (Or.inl hr))

theorem arp_loop_complete (env : ArpEnv) (netw broadcast : Nat) (hosts : List Nat)
    (st : List DiscRecord) (ip : Nat) (macs : List String) (mac : String)
    (hok : ∀ j, ∃ ms, env.probe j = .ok ms)
    (hip : ip ∈ hosts) (hnw : ip ≠ netw) (hbc : ip ≠ broadcast)
    (hpr : env.probe ip = .ok macs) (hmac : mac ∈ macs) :
    arp_record ip mac (env.lookup ip) ∈ (arp_loop env netw broadcast hosts st).1 := by
  induction hosts generalizing st with
  | nil => simp at hip
  | cons x rest ih =>
    rcases List.mem_cons.mp hip with rfl | hmem
    · rw [arp_loop_ok env netw broadcast ip rest st macs (not_or.mpr ⟨hnw, hbc⟩) hpr]
      refine arp_loop_mono env netw broadcast rest _ _ hok ?_
      exact List.mem_append.mpr (Or.inr (List.mem_map.mpr ⟨mac, hmac, rfl⟩))
    · by_cases hskip : x = netw ∨ x = broadcast
      · rw [arp_loop_skip env netw broadcast x rest st hskip]
        exact ih st hmem
      · obtain ⟨ms, hms⟩ := hok x
        rw [arp_loop_ok env netw broadcast x rest st ms hskip hms]
        exact ih _ hmem

theorem arp_loop_decomp (env : ArpEnv) (netw broadcast : Nat) (hosts : List Nat)
    (st : List DiscRecord) :
    ∃ suffix, (arp_loop env netw broadcast hosts st).1 = st ++ suffix ∧
      ∀ r ∈ suffix, r.discovery_method = "arp" := by
  induction hosts generalizing st with
  | nil => exact ⟨[], by simp [arp_loop], by simp⟩
  | cons ip rest ih =>
    by_cases hskip : ip = netw ∨ ip = broadcast
    · rw [arp_loop_skip env netw broadcast ip rest st hskip]
      exact ih st
    · cases hp : env.probe ip with
      | error e =>
        rw [arp_loop_err env netw broadcast ip rest st e hskip hp]
        exact ⟨[], by simp, by simp⟩
      | ok macs =>
        rw [arp_loop_ok env netw broadcast ip rest st macs hskip hp]
        obtain ⟨suf, heq, hall⟩ := ih (st ++ macs.map (fun m => arp_record ip m (env.lookup ip)))
        refine ⟨macs.map (fun m => arp_record ip m (env.lookup ip)) ++ suf,
          by rw [heq, List.append_assoc], ?_⟩
        intro r hr
        rcases List.mem_append.mp hr with h1 | h2
        · obtain ⟨m, _, rfl⟩ := List.mem_map.mp h1
          rfl
        · exact hall r h2

theorem ipv4HostsList_bounds (netw hostBits x : Nat)
    (hx : x ∈ ipv4HostsList netw hostBits) :
    netw ≤ x ∧ x ≤ netw + 2 ^ hostBits - 1 := by
  unfold ipv4HostsList at hx
  by_cases h0 : hostBits = 0
  · subst h0
    simp at hx
    subst hx
    norm_num
  · by_cases h1 : hostBits = 1
    · subst h1
      rw [if_neg (by norm_num)] at hx
      simp at hx
      rcases hx with rfl | rfl <;> norm_num
    · rw [if_neg h0, if_neg h1] at hx
      simp only [List.mem_map, List.mem_range] at hx
      obtain ⟨i, hi, rfl⟩ := hx
      have h4 : 4 ≤ 2 ^ hostBits := by
        calc (4 : Nat) = 2 ^ 2 := by norm_num
        _ ≤ 2 ^ hostBits := Nat.pow_le_pow_right (by norm_num) (by omega)
      omega

/-! ## C9: ARP results stay inside the subnet -/

/-- C9: every record the link-layer (ARP) scan adds or returns has an
address inside the scanned CIDR subnet and distinct from both the
network address and the broadcast address. -/
theorem c9_arp_within_subnet (env : ArpEnv) (netw hostBits : Nat) (st : List DiscRecord)
    (r : DiscRecord)
    (hr : r ∈ (scan_with_arp env netw hostBits st).1 ∨
          r ∈ (scan_with_arp env netw hostBits st).2) :
    r ∈ st ∨
      (netw ≤ r.ip_address ∧ r.ip_address ≤ netw + 2 ^ hostBits - 1 ∧
       r.ip_address ≠ netw ∧ r.ip_address ≠ netw + 2 ^ hostBits - 1 ∧
       r.discovery_method = "arp") := by
  unfold scan_with_arp at hr
  by_cases ha : env.available
  · rw [if_neg (by simpa using ha)] at hr
    have hr1 : r ∈ (arp_loop env netw (netw + 2 ^ hostBits - 1)
        (ipv4HostsList netw hostBits) st).1 := by
      rcases hr with h1 | h2
      · exact h1
      · exact arp_loop_ret_sub env _ _ _ st r h2
    rcases arp_loop_mem env _ _ _ st r hr1 with h1 | ⟨ip, hip, hnw, hbc, heq, hmeth⟩
    · exact Or.inl h1
    · have hb := ipv4HostsList_bounds netw hostBits ip hip
      rw [heq]
      exact Or.inr ⟨hb.1, hb.2, hnw, hbc, hmeth⟩
  · rw [if_pos (by simpa using ha)] at hr
    rcases hr with h1 | h2
    · exact Or.inl h1
    · simp at h2

/-- Witness for `c9_arp_within_subnet`: the record of the responding
host 2 in the `0/29` subnet. -/
theorem c9_arp_within_subnet_witness :
    arp_record 2 "aa:bb" none ∈ ([] : List DiscRecord) ∨
      (0 ≤ (arp_record 2 "aa:bb" none).ip_address ∧
       (arp_record 2 "aa:bb" none).ip_address ≤ 0 + 2 ^ 3 - 1 ∧
       (arp_record 2 "aa:bb" none).ip_address ≠ 0 ∧
       (arp_record 2 "aa:bb" none).ip_address ≠ 0 + 2 ^ 3 - 1 ∧
       (arp_record 2 "aa:bb" none).discovery_method = "arp") :=
  c9_arp_within_subnet arpEnvNoErr 0 3 [] (arp_record 2 "aa:bb" none)
    (Or.inl (by decide))

/-! ## C8: lookup failures are tolerated, probe failures abort the scan -/

/-- C8 counterexample: in `arpEnvProbeErr` the probe of host 1 raises;
the exception is caught at scan level, the scan stops and returns `[]`,
so the responding host 2 is never probed — while in the identical
environment without the failure (`arpEnvNoErr`) host 2 is recorded.  A
single failed probe therefore does abort the remaining probes of the
scan. -/
theorem c8_counterexample :
    (scan_with_arp arpEnvProbeErr 0 3 []).1 = [] ∧
    (scan_with_arp arpEnvProbeErr 0 3 []).2 = [] ∧
    arpEnvProbeErr.probe 2 = .ok ["aa:bb"] ∧
    (scan_with_arp arpEnvNoErr 0 3 []).1 = [arp_record 2 "aa:bb" none] := by
  refine ⟨by decide, by decide, rfl, by decide⟩

/-- C8 amended: a reverse-DNS lookup failure (`socket.herror`) for a
responding host yields the hostname sentinel `"Unknown"` and is never
fatal — the host is recorded and the scan continues over the remaining
probes (stated here for scans in which no link-layer probe raises; a
raised probe aborts the remaining probes of that scan, per the
counterexample, though the exception is caught at scan level and the run
continues). -/
theorem c8_amended_lookup_failure_tolerated (env : ArpEnv) (netw hostBits : Nat)
    (st : List DiscRecord) (ip : Nat) (macs : List String) (mac : String)
    (hav : env.available = true)
    (hok : ∀ j, ∃ ms, env.probe j = .ok ms)
    (hip : ip ∈ ipv4HostsList netw hostBits)
    (hnw : ip ≠ netw) (hbc : ip ≠ netw + 2 ^ hostBits - 1)
    (hpr : env.probe ip = .ok macs) (hmac : mac ∈ macs)
    (hlk : env.lookup ip = none) :
    (arp_record ip mac (env.lookup ip)).hostname = "Unknown" ∧
    arp_record ip mac (env.lookup ip) ∈ (scan_with_arp env netw hostBits st).1 := by
  constructor
  · rw [hlk]
    rfl
  · unfold scan_with_arp
    rw [if_neg (by simpa using hav)]
    exact arp_loop_complete env netw _ _ st ip macs mac hok hip hnw hbc hpr hmac

/-- Witness for `c8_amended_lookup_failure_tolerated`: host 2 of the
`0/29` subnet in `arpEnvNoErr`, whose reverse lookup fails. -/
theorem c8_amended_lookup_failure_tolerated_witness :
    (arp_record 2 "aa:bb" (arpEnvNoErr.lookup 2)).hostname = "Unknown" ∧
    arp_record 2 "aa:bb" (arpEnvNoErr.lookup 2) ∈ (scan_with_arp arpEnvNoErr 0 3 []).1 :=
  c8_amended_lookup_failure_tolerated arpEnvNoErr 0 3 [] 2 ["aa:bb"] "aa:bb"
    rfl (fun j => ⟨if j == 2 then ["aa:bb"] else [], rfl⟩)
    (by decide) (by decide) (by decide) rfl (by decide) rfl

/-! ## C1: no merge across discovery methods -/

/-- C1 counterexample: with the nmap scanner reporting host 5 and the
ARP scan also finding host 5, the final device list of the run holds two
records for address 5 (one per method) — not a single merged record. -/
theorem c1_counterexample :
    ((run_discovery nmapEnvFive arpEnvFive 0 4).filter
        (fun r => r.ip_address == 5)).length = 2 ∧
    (run_discovery nmapEnvFive arpEnvFive 0 4).map (fun r => r.discovery_method) =
      ["nmap", "arp"] := by
  refine ⟨by decide, by decide⟩

/-- C1 amended: the Discovery Engine performs no merge or deduplication:
a run is the concatenation of the records appended by each method in
invocation order, each record keeping its own method's fields and
`discovery_method`; an address reported by several methods appears once
per reporting method. -/
theorem c1_amended_no_merge (envN : NmapEnv) (envA : ArpEnv) (netw hostBits : Nat) :
    ∃ ns as, run_discovery envN envA netw hostBits = ns ++ as ∧
      (∀ r ∈ ns, r.discovery_method = "nmap") ∧
      (∀ r ∈ as, r.discovery_method = "arp") := by
  have hn : ∀ r ∈ (scan_with_nmap envN []).1, r.discovery_method = "nmap" := by
    intro r hr
    unfold scan_with_nmap at hr
    by_cases ha : envN.available
    · rw [if_neg (by simpa using ha)] at hr
      cases hs : envN.scan with
      | error e =>
        rw [hs] at hr
        simp at hr
      | ok hostInfos =>
        rw [hs] at hr
        simp at hr
        obtain ⟨h0, _, rfl⟩ := hr
        rfl
    · rw [if_pos (by simpa using ha)] at hr
      simp at hr
  unfold run_discovery scan_with_arp
  by_cases ha2 : envA.available
  · rw [if_neg (by simpa using ha2)]
    obtain ⟨suf, heq, hall⟩ := arp_loop_decomp envA netw (netw + 2 ^ hostBits - 1)
      (ipv4HostsList netw hostBits) (scan_with_nmap envN []).1
    exact ⟨(scan_with_nmap envN []).1, suf, heq, hn, hall⟩
  · rw [if_pos (by simpa using ha2)]
    exact ⟨(scan_with_nmap envN []).1, [], by simp, hn, by simp⟩

/-! ## C3: input-not-found handling of the two entry points -/

/-- C3 counterexample: with no explicit input file and no discovery file
in the known directory, the assessment entry point (`main` of
`hardware_analyzer.py`) prints its messages but finishes with exit
status 0 — it never calls `sys.exit`, so the run does not abort with a
non-zero status. -/
theorem c3_counterexample :
    hw_main hwEnvEmpty =
      (0, ["Inventory file not found: None", "No devices were successfully assessed"]) := by
  decide

/-- C3 amended: when no usable input file is located, the
inventory-generation entry point aborts with exit status 1 together with
a clear message, but the assessment entry point does not abort: it
prints its messages and exits with status 0. -/
theorem c3_amended_exit_status (envG : GenEnv) (envH : HwEnv)
    (hga : envG.assessment_files = []) (hgd : envG.discovery_files = [])
    (hhe : envH.explicit_file = none) (hhd : envH.discovery_files = []) :
    (gen_main envG).1 = 1 ∧
    "Failed to load discovered devices" ∈ (gen_main envG).2 ∧
    (hw_main envH).1 = 0 ∧
    "No devices were successfully assessed" ∈ (hw_main envH).2 := by
  have hload : load_discovered_devices envG = (false, [],
      if envG.input_dir_exists then
        ["No hardware assessment files found", "No network discovery files found either"]
      else ["Input directory not found"]) := by
    unfold load_discovered_devices
    by_cases hdir : envG.input_dir_exists
    · simp [hdir, hga, hgd]
    · simp [hdir]
  have hfind : find_inventory_file envH = none := by
    unfold find_inventory_file
    rw [hhe]
    by_cases hdir : envH.dir_exists
    · simp [hdir, hhd]
    · simp [hdir]
  have hloadh : load_inventory envH = ([], ["Inventory file not found: None"]) := by
    unfold load_inventory
    rw [hfind]
  refine ⟨?_, ?_, ?_, ?_⟩
  · simp [gen_main, hload]
  · simp [gen_main, hload]
  · simp [hw_main, hloadh, assess_all_devices]
  · simp [hw_main, hloadh, assess_all_devices]

/-- Witness for `c3_amended_exit_status` at the two empty filesystem
environments. -/
theorem c3_amended_exit_status_witness :
    (gen_main genEnvEmpty).1 = 1 ∧
    "Failed to load discovered devices" ∈ (gen_main genEnvEmpty).2 ∧
    (hw_main hwEnvEmpty).1 = 0 ∧
    "No devices were successfully assessed" ∈ (hw_main hwEnvEmpty).2 :=
  c3_amended_exit_status genEnvEmpty hwEnvEmpty rfl rfl rfl rfl

end Pipeline
